import Mathlib

/-!
Verification development for the a11y-pilot accessibility scanner.

The definitions below are a shallow embedding of the scanner sources:
the unified element model shared by the two parser backends
(`src/parsers/jsx-parser.js`, `src/parsers/html-parser.js`), the rule
registry (`src/rules/*.js`), the per-file rule engine (`analyzeFile` in
`src/cli.js`), the fix orchestration of `src/copilot-bridge.js`, and the
position-recovery scan of the hypertext backend.  JavaScript dictionaries
become association lists, JavaScript numbers on source lines become `Int`
(line arithmetic in the sources is plain subtraction and comparison), and
fallible lookups become `Option`.
-/

/-- An attribute value as produced by either parser backend: a literal
string (this includes the literal placeholder string used for dynamic
expressions), or the boolean presence marker `true` stored for
valueless attributes. -/
inductive AttrVal where
  | str (s : String)
  | boolTrue
deriving DecidableEq, Repr

/-- Unified element shape produced by both backends (`collectJSXElements`
and `parseHTML` build exactly these fields). -/
structure Element where
  name : String
  rawName : String
  attributes : List (String × AttrVal)
  hasAttributes : List String
  hasTextChildren : Bool
  line : Int
  column : Int
  sourceLine : String
  selfClosing : Bool
deriving DecidableEq, Repr

/-- Heading record derived from elements (`collectHeadings`). -/
structure Heading where
  level : Nat
  line : Int
  sourceLine : String
deriving DecidableEq, Repr

/-- Issue record as built by every rule.  The long natural-language
`copilotPrompt` repair text of the sources is presentation-only free text
and is not carried in the model; `ruleId`, `severity`, `message`, `line`,
`sourceLine` and `fix` are carried faithfully. -/
structure Issue where
  ruleId : String
  severity : String
  message : String
  line : Int
  sourceLine : String
  fix : String
deriving DecidableEq, Repr

/-- JavaScript truthiness of an attribute value: the empty string is
falsy, every other string and the boolean marker are truthy. -/
def AttrVal.truthy : AttrVal → Bool
  | .str s => s ≠ ""
  | .boolTrue => true

/-- Truthiness of `element.attributes[k]` where a missing key is
`undefined`, hence falsy. -/
def truthyOpt : Option AttrVal → Bool
  | some v => v.truthy
  | none => false

/-- String form of an attribute value under JavaScript coercion
(`true` coerces to the string "true"). -/
def valToString : AttrVal → String
  | .str s => s
  | .boolTrue => "true"

/-- JavaScript `String.prototype.toLowerCase` on the ASCII range the
scanner handles, computed characterwise. -/
def jsToLower (s : String) : String :=
  String.mk (s.toList.map Char.toLower)

/-- JavaScript `String.prototype.startsWith`, computed on character
lists. -/
def jsStartsWith (s pre : String) : Bool :=
  pre.toList.isPrefixOf s.toList

/-- Models `k in element.attributes`. -/
def attrIn (e : Element) (k : String) : Bool :=
  (e.attributes.lookup k).isSome

/-- Models `element.attributes[k]`. -/
def attrVal (e : Element) (k : String) : Option AttrVal :=
  e.attributes.lookup k

/-- Models truthiness of `element.hasAttributes[k]` (the stored values
are always `true`, so presence is truthiness). -/
def hasAttr (e : Element) (k : String) : Bool :=
  e.hasAttributes.contains k

/-- Models the JavaScript expression `v1 || v2` on two attribute
lookups. -/
def jsOr (v1 v2 : Option AttrVal) : Option AttrVal :=
  if truthyOpt v1 then v1 else v2

/-- Numeric value of a list of decimal digits. -/
def digitsToNat (ds : List Char) : Nat :=
  ds.foldl (fun acc c => acc * 10 + (c.toNat - 48)) 0

/-- Models `parseInt(s, 10)`: skip leading whitespace, read an optional
sign and then the longest prefix of decimal digits; `none` is NaN.
(JavaScript whitespace is a superset of `Char.isWhitespace`; the extra
exotic space characters play no role here.) -/
def jsParseInt (s : String) : Option Int :=
  let cs := s.toList.dropWhile (fun c => c.isWhitespace)
  let signAndRest : Int × List Char :=
    match cs with
    | '-' :: t => (-1, t)
    | '+' :: t => (1, t)
    | _ => (1, cs)
  let digits := signAndRest.2.takeWhile (fun c => c.isDigit)
  if digits.isEmpty then none
  else some (signAndRest.1 * (digitsToNat digits : Int))

/-- Rule shape: an element-scoped `check` plus the optional file-scoped
entry points that individual rule modules expose (`heading-order` has
`checkHeadings`, `semantic-nav` has `checkNavPatterns`,
`landmark-regions` has `checkLandmarks`). -/
structure Rule where
  id : String
  check : Element → Option Issue
  checkHeadings : Option (List Heading → List Issue) := none
  checkNavPatterns : Option (List Element → String → List Issue) := none
  checkLandmarks : Option (List Element → String → Except String (List Issue)) := none

/-- Rule `img-alt` (`src/rules/img-alt.js`). -/
def imgAltCheck (e : Element) : Option Issue :=
  if e.name != "img" then none
  else if hasAttr e "...spread" then none
  else if attrIn e "alt" then none
  else some
    { ruleId := "img-alt", severity := "error"
      message := "<img> is missing the `alt` attribute"
      line := e.line, sourceLine := e.sourceLine
      fix := "Add alt=\"descriptive text\" or alt=\"\" if the image is decorative" }

/-- Rule `button-content` (`src/rules/button-content.js`). -/
def buttonContentCheck (e : Element) : Option Issue :=
  if e.name != "button" then none
  else if hasAttr e "...spread" then none
  else
    let hasAriaLabel := attrIn e "aria-label" || attrIn e "ariaLabel"
    let hasAriaLabelledBy := attrIn e "aria-labelledby" || attrIn e "ariaLabelledby"
    let hasTitle := attrIn e "title"
    let hasText := e.hasTextChildren
    if !hasAriaLabel && !hasAriaLabelledBy && !hasTitle && !hasText then some
      { ruleId := "button-content", severity := "error"
        message := "<button> has no accessible name (no text content, aria-label, or title)"
        line := e.line, sourceLine := e.sourceLine
        fix := "Add text content inside the button, or add an aria-label attribute" }
    else none

/-- Rule `anchor-content` (`src/rules/anchor-content.js`). -/
def anchorContentCheck (e : Element) : Option Issue :=
  if e.name != "a" then none
  else if hasAttr e "...spread" then none
  else if !attrIn e "href" then none
  else
    let hasAriaLabel := attrIn e "aria-label" || attrIn e "ariaLabel"
    let hasAriaLabelledBy := attrIn e "aria-labelledby" || attrIn e "ariaLabelledby"
    let hasTitle := attrIn e "title"
    let hasText := e.hasTextChildren
    let hasAriaHidden := attrVal e "aria-hidden" == some (AttrVal.str "true")
      || attrVal e "ariaHidden" == some (AttrVal.str "true")
    if hasAriaHidden then none
    else if !hasAriaLabel && !hasAriaLabelledBy && !hasTitle && !hasText then some
      { ruleId := "anchor-content", severity := "error"
        message := "<a> element has no accessible name (no text content, aria-label, or title)"
        line := e.line, sourceLine := e.sourceLine
        fix := "Add text content inside the link, or add an aria-label attribute describing the link destination" }
    else none

/-- Rule `no-div-button` (`src/rules/no-div-button.js`).  The source also
computes a `hasAriaDisabled`-style unused binding; only the bindings that
feed the decision are modelled. -/
def noDivButtonCheck (e : Element) : Option Issue :=
  if !(["div", "span", "section", "article", "li", "td"].contains e.name) then none
  else if hasAttr e "...spread" then none
  else
    let hasClick := attrIn e "onClick" || attrIn e "onclick"
      || attrIn e "onKeyDown" || attrIn e "onkeydown"
      || attrIn e "onKeyUp" || attrIn e "onkeyup"
      || attrIn e "onKeyPress" || attrIn e "onkeypress"
    if !hasClick then none
    else
      let hasRole := attrIn e "role"
      let hasTabIndex := attrIn e "tabIndex" || attrIn e "tabindex"
      if !hasRole || !hasTabIndex then
        let missing := (if !hasRole then ["role"] else [])
          ++ (if !hasTabIndex then ["tabIndex"] else [])
        some
          { ruleId := "no-div-button", severity := "error"
            message := "<" ++ e.rawName ++ "> has a click handler but is missing "
              ++ String.intercalate " and " missing ++ ". Use a <button> instead."
            line := e.line, sourceLine := e.sourceLine
            fix := "Replace this <" ++ e.rawName
              ++ "> with a <button> element, or add role=\"button\" and tabIndex={0}" }
      else none

/-- Rule `form-label` (`src/rules/form-label.js`).  The source computes an
unused `hasId` binding; only the bindings that feed the decision are
modelled. -/
def formLabelCheck (e : Element) : Option Issue :=
  if !(["input", "select", "textarea"].contains e.name) then none
  else if hasAttr e "...spread" then none
  else
    let typeVal := attrVal e "type"
    if typeVal == some (AttrVal.str "hidden") || typeVal == some (AttrVal.str "submit")
        || typeVal == some (AttrVal.str "button") || typeVal == some (AttrVal.str "reset") then none
    else
      let hasAriaLabel := attrIn e "aria-label" || attrIn e "ariaLabel"
      let hasAriaLabelledBy := attrIn e "aria-labelledby" || attrIn e "ariaLabelledby"
      let hasTitle := attrIn e "title"
      let hasPlaceholder := attrIn e "placeholder"
      if !hasAriaLabel && !hasAriaLabelledBy && !hasTitle then some
        { ruleId := "form-label", severity := "error"
          message := "<" ++ e.rawName
            ++ "> has no accessible label (missing aria-label, aria-labelledby, or title)"
            ++ (if hasPlaceholder then ". Note: placeholder is NOT a substitute for a label" else "")
          line := e.line, sourceLine := e.sourceLine
          fix := "Add aria-label=\"Description\" to the input, or wrap it with a <label> element" }
      else none

/-- Rule `no-autofocus` (`src/rules/no-autofocus.js`). -/
def noAutofocusCheck (e : Element) : Option Issue :=
  let hasAutoFocus := attrIn e "autoFocus" || attrIn e "autofocus"
    || hasAttr e "autoFocus" || hasAttr e "autofocus"
  if !hasAutoFocus then none
  else some
    { ruleId := "no-autofocus", severity := "warning"
      message := "<" ++ e.rawName ++ "> uses autoFocus which disrupts screen reader and keyboard navigation"
      line := e.line, sourceLine := e.sourceLine
      fix := "Remove the autoFocus attribute. If focus management is needed, use a ref with useEffect for controlled focus." }

/-- The `VALID_ROLES` set of `src/rules/aria-valid.js`. -/
def VALID_ROLES : List String :=
  ["alert", "alertdialog", "application", "article", "banner", "button",
   "cell", "checkbox", "columnheader", "combobox", "complementary",
   "contentinfo", "definition", "dialog", "directory", "document",
   "feed", "figure", "form", "grid", "gridcell", "group", "heading",
   "img", "link", "list", "listbox", "listitem", "log", "main",
   "marquee", "math", "menu", "menubar", "menuitem", "menuitemcheckbox",
   "menuitemradio", "meter", "navigation", "none", "note", "option",
   "presentation", "progressbar", "radio", "radiogroup", "region",
   "row", "rowgroup", "rowheader", "scrollbar", "search", "searchbox",
   "separator", "slider", "spinbutton", "status", "switch", "tab",
   "table", "tablist", "tabpanel", "term", "textbox", "timer",
   "toolbar", "tooltip", "tree", "treegrid", "treeitem"]

/-- The `VALID_ARIA_ATTRS` set of `src/rules/aria-valid.js`. -/
def VALID_ARIA_ATTRS : List String :=
  ["aria-activedescendant", "aria-atomic", "aria-autocomplete",
   "aria-braillelabel", "aria-brailleroledescription", "aria-busy",
   "aria-checked", "aria-colcount", "aria-colindex", "aria-colindextext",
   "aria-colspan", "aria-controls", "aria-current", "aria-describedby",
   "aria-description", "aria-details", "aria-disabled", "aria-dropeffect",
   "aria-errormessage", "aria-expanded", "aria-flowto", "aria-grabbed",
   "aria-haspopup", "aria-hidden", "aria-invalid", "aria-keyshortcuts",
   "aria-label", "aria-labelledby", "aria-level", "aria-live",
   "aria-modal", "aria-multiline", "aria-multiselectable", "aria-orientation",
   "aria-owns", "aria-placeholder", "aria-posinset", "aria-pressed",
   "aria-readonly", "aria-relevant", "aria-required", "aria-roledescription",
   "aria-rowcount", "aria-rowindex", "aria-rowindextext", "aria-rowspan",
   "aria-selected", "aria-setsize", "aria-sort", "aria-valuemax",
   "aria-valuemin", "aria-valuenow", "aria-valuetext"]

/-- The `INTERACTIVE_ELEMENTS` set of `src/rules/aria-valid.js`. -/
def INTERACTIVE_ELEMENTS : List String :=
  ["a", "button", "input", "select", "textarea"]

/-- The issue produced by check 1 of `aria-valid` for an invalid role
value. -/
def mkInvalidRoleIssue (e : Element) (rv : AttrVal) : Issue :=
  { ruleId := "aria-valid", severity := "error"
    message := "Invalid ARIA role=\"" ++ valToString rv ++ "\" on <" ++ e.rawName ++ ">"
    line := e.line, sourceLine := e.sourceLine
    fix := "Use a valid ARIA role. Common roles: button, link, navigation, dialog, alert, status" }

/-- Checks 2 to 4 of `aria-valid` (`aria-valid.js`), reached only when
check 1 neither fires nor throws; none of them calls a string method on
an attribute value, so they cannot throw. -/
def ariaValidRest (e : Element) (roleVal : Option AttrVal) : Option Issue :=
  if (roleVal == some (AttrVal.str "presentation") || roleVal == some (AttrVal.str "none"))
      && INTERACTIVE_ELEMENTS.contains e.name then
    some
      { ruleId := "aria-valid", severity := "error"
        message := "role=\"" ++ valToString (roleVal.getD (AttrVal.str "")) ++ "\" on interactive <"
          ++ e.rawName ++ "> removes its semantics from the accessibility tree"
        line := e.line, sourceLine := e.sourceLine
        fix := "Remove role=\"" ++ valToString (roleVal.getD (AttrVal.str ""))
          ++ "\" from interactive elements — it strips their accessibility semantics" }
  else
    match e.attributes.find? (fun p =>
        jsStartsWith p.1 "aria-" && !VALID_ARIA_ATTRS.contains (jsToLower p.1)) with
    | some p =>
      some
        { ruleId := "aria-valid", severity := "error"
          message := "Invalid ARIA attribute \"" ++ p.1 ++ "\" on <" ++ e.rawName ++ ">"
          line := e.line, sourceLine := e.sourceLine
          fix := "Remove or replace \"" ++ p.1 ++ "\" with a valid ARIA attribute" }
    | none =>
      if attrVal e "aria-hidden" == some (AttrVal.str "true")
          && (hasAttr e "aria-label" || hasAttr e "aria-labelledby") then
        some
          { ruleId := "aria-valid", severity := "warning"
            message := "<" ++ e.rawName
              ++ "> has aria-hidden=\"true\" with aria-label — the label will be ignored"
            line := e.line, sourceLine := e.sourceLine
            fix := "Remove either aria-hidden or the aria-label — they conflict" }
      else none

/-- Rule `aria-valid` (`aria-valid.js`): four sequential checks with early
return; the first one that fires wins.  Check 1 evaluates
`role && role !== '{expression}' && !VALID_ROLES.has(role.toLowerCase())`:
a `role` attribute stored as the boolean marker (a valueless JSX `role`)
is truthy and is not the placeholder string, so the source reaches
`role.toLowerCase()` on a boolean and throws a TypeError — modelled as
the error case.  `toLowerCase` is only ever applied to an actual
string. -/
def ariaValidCheck (e : Element) : Except String (Option Issue) :=
  if hasAttr e "...spread" then Except.ok none
  else
    match attrVal e "role" with
    | some AttrVal.boolTrue =>
      Except.error "TypeError: role.toLowerCase is not a function"
    | roleVal =>
      if truthyOpt roleVal && roleVal != some (AttrVal.str "{expression}")
          && !VALID_ROLES.contains (jsToLower (valToString (roleVal.getD (AttrVal.str "")))) then
        Except.ok (some (mkInvalidRoleIssue e (roleVal.getD (AttrVal.str ""))))
      else Except.ok (ariaValidRest e roleVal)

/-- The aria-valid check with its exception collapsed to null, used only
for the registry entry of the total rule-engine model: `analyzeFile` in
the source installs no exception handler, so on an element where
`ariaValidCheck` throws, the real scan aborts with the TypeError instead
of continuing; this total restriction is faithful exactly on elements
where `ariaValidCheck` returns normally. -/
def ariaValidCheckTotal (e : Element) : Option Issue :=
  match ariaValidCheck e with
  | Except.ok o => o
  | Except.error _ => none

/-- Rule `keyboard-handlers` (`src/rules/keyboard-handlers.js`).  The
source computes an unused `hasInteractiveRole` binding; only the bindings
that feed the decision are modelled. -/
def keyboardHandlersCheck (e : Element) : Option Issue :=
  if hasAttr e "...spread" then none
  else if ["button", "a", "input", "select", "textarea", "summary", "details"].contains e.name then none
  else
    let hasClick := hasAttr e "onClick" || hasAttr e "onclick"
    if !hasClick then none
    else
      let hasKeyHandler := hasAttr e "onKeyDown" || hasAttr e "onkeydown"
        || hasAttr e "onKeyUp" || hasAttr e "onkeyup"
        || hasAttr e "onKeyPress" || hasAttr e "onkeypress"
      if !hasKeyHandler then some
        { ruleId := "keyboard-handlers", severity := "error"
          message := "<" ++ e.rawName ++ "> has onClick but no onKeyDown/onKeyUp handler for keyboard users"
          line := e.line, sourceLine := e.sourceLine
          fix := "Add an onKeyDown handler that triggers on Enter and Space keys" }
      else none

/-- The `FOCUSABLE_ELEMENTS` set of `src/rules/aria-hidden-focus.js`. -/
def FOCUSABLE_ELEMENTS : List String :=
  ["a", "button", "input", "select", "textarea", "summary"]

/-- Rule `aria-hidden-focus` (`src/rules/aria-hidden-focus.js`). -/
def ariaHiddenFocusCheck (e : Element) : Option Issue :=
  if hasAttr e "...spread" then none
  else
    let isAriaHidden := attrVal e "aria-hidden" == some (AttrVal.str "true")
      || attrVal e "ariaHidden" == some (AttrVal.str "true")
    if !isAriaHidden then none
    else
      let isFocusable := FOCUSABLE_ELEMENTS.contains e.name
        || hasAttr e "tabIndex" || hasAttr e "tabindex"
        || hasAttr e "contentEditable" || hasAttr e "contenteditable"
      if e.name == "a" && !hasAttr e "href" then none
      else if e.name == "input" && attrVal e "type" == some (AttrVal.str "hidden") then none
      else
        let tabIndexVal := jsOr (attrVal e "tabIndex") (attrVal e "tabindex")
        if tabIndexVal == some (AttrVal.str "-1") then none
        else if isFocusable then some
          { ruleId := "aria-hidden-focus", severity := "error"
            message := "<" ++ e.rawName
              ++ "> is focusable but has aria-hidden=\"true\" — keyboard users can reach it but screen readers cannot"
            line := e.line, sourceLine := e.sourceLine
            fix := "Either remove aria-hidden=\"true\" or add tabIndex={-1} to remove it from the tab order" }
        else none

/-- Rule `hover-only` (`hover-only.js`). -/
def hoverOnlyCheck (e : Element) : Option Issue :=
  if hasAttr e "...spread" then none
  else
    let hasMouseEnter := hasAttr e "onMouseEnter" || hasAttr e "onmouseenter"
    let hasMouseOver := hasAttr e "onMouseOver" || hasAttr e "onmouseover"
    let hasMouseLeave := hasAttr e "onMouseLeave" || hasAttr e "onmouseleave"
    if !(hasMouseEnter || hasMouseOver || hasMouseLeave) then none
    else
      let hasFocusEquivalent := hasAttr e "onFocus" || hasAttr e "onfocus"
        || hasAttr e "onBlur" || hasAttr e "onblur"
      if !hasFocusEquivalent then
        let hoverType := if hasMouseEnter then "onMouseEnter"
          else if hasMouseOver then "onMouseOver" else "onMouseLeave"
        some
          { ruleId := "hover-only", severity := "error"
            message := "<" ++ e.rawName ++ "> has " ++ hoverType
              ++ " but no onFocus/onBlur equivalent for keyboard users"
            line := e.line, sourceLine := e.sourceLine
            fix := "Add onFocus and onBlur handlers that mirror the hover behavior" }
      else none

/-- The issue produced by `disabled-state` when a disabled control lacks
an explanation. -/
def mkDisabledIssue (e : Element) : Issue :=
  { ruleId := "disabled-state", severity := "warning"
    message := "<" ++ e.rawName
      ++ "> is disabled without accessible explanation (add title or aria-describedby)"
    line := e.line, sourceLine := e.sourceLine
    fix := "Add a title attribute or aria-describedby explaining why the control is disabled" }

/-- Rule `disabled-state` (`src/rules/disabled-state.js`).  Note the
explanation test consults only the hyphenated spellings
`aria-label`/`aria-describedby` (plus `title`); the source also computes
an unused `hasAriaDisabled` binding. -/
def disabledStateCheck (e : Element) : Option Issue :=
  if hasAttr e "...spread" then none
  else if !(["button", "input", "select", "textarea", "fieldset"].contains e.name) then none
  else if !hasAttr e "disabled" then none
  else
    let hasExplanation := hasAttr e "title" || hasAttr e "aria-label" || hasAttr e "aria-describedby"
    if !hasExplanation then some (mkDisabledIssue e)
    else none

/-- The issue produced by `tabindex-positive` for a positive numeric
value `n`. -/
def mkTabindexIssue (e : Element) (n : Int) : Issue :=
  { ruleId := "tabindex-positive", severity := "warning"
    message := "<" ++ e.rawName ++ "> has tabindex=\"" ++ toString n
      ++ "\" — positive tabindex disrupts natural tab order"
    line := e.line, sourceLine := e.sourceLine
    fix := "Change tabindex=\"" ++ toString n
      ++ "\" to tabindex=\"0\" (or remove it if the element is natively focusable)" }

/-- Rule `tabindex-positive` (`src/rules/tabindex-positive.js`):
`parseInt(rawValue, 10)` on the boolean marker coerces it to "true",
which parses to NaN, hence no issue. -/
def tabindexPositiveCheck (e : Element) : Option Issue :=
  if hasAttr e "...spread" then none
  else if !hasAttr e "tabindex" && !hasAttr e "tabIndex" then none
  else
    let rawValue := jsOr (attrVal e "tabindex") (attrVal e "tabIndex")
    if !truthyOpt rawValue || rawValue == some (AttrVal.str "{expression}") then none
    else
      match jsParseInt (valToString (rawValue.getD (AttrVal.str ""))) with
      | none => none
      | some n => if 0 < n then some (mkTabindexIssue e n) else none


/-- The issue produced by `heading-order` for a skipped level. -/
def mkSkipIssue (prevLevel : Nat) (h : Heading) : Issue :=
  { ruleId := "heading-order", severity := "warning"
    message := "Heading level skipped: <h" ++ toString prevLevel ++ "> → <h" ++ toString h.level
      ++ "> (missing <h" ++ toString (prevLevel + 1) ++ ">)"
    line := h.line, sourceLine := h.sourceLine
    fix := "Change this to <h" ++ toString (prevLevel + 1) ++ "> or add the missing heading levels" }

/-- The walk of `checkHeadings` (`src/rules/heading-order.js`): `prevLevel`
starts at 0 and a skip is flagged when `heading.level > prevLevel + 1`
with `prevLevel > 0`. -/
def checkHeadingsGo (prevLevel : Nat) : List Heading → List Issue
  | [] => []
  | h :: rest =>
    (if 0 < prevLevel && prevLevel + 1 < h.level then [mkSkipIssue prevLevel h] else [])
      ++ checkHeadingsGo h.level rest

/-- File-scoped entry point of the `heading-order` rule. -/
def checkHeadings (headings : List Heading) : List Issue :=
  if headings.isEmpty then [] else checkHeadingsGo 0 headings

/-- The issue produced by `semantic-nav`; `count` is the total number of
qualifying anchors in the file and `a1` the first anchor of the flagged
window. -/
def mkNavIssue (count : Nat) (a1 : Element) : Issue :=
  { ruleId := "semantic-nav", severity := "warning"
    message := "Found " ++ toString count ++ " navigation links without a <nav> landmark wrapper"
    line := a1.line, sourceLine := a1.sourceLine
    fix := "Wrap these navigation links in a <nav> element with an aria-label" }

/-- The window loop of `checkNavPatterns`: scan windows of 3 consecutive
anchors in order, emit one issue for the first window spanning at most 15
lines and stop (the `break` in the source). -/
def navWindowScan (count : Nat) : List Element → List Issue
  | a1 :: a2 :: a3 :: rest =>
    if a3.line - a1.line ≤ 15 then [mkNavIssue count a1]
    else navWindowScan count (a2 :: a3 :: rest)
  | _ => []

/-- The `anchorElements` filter of `checkNavPatterns`: anchors with an
href attribute, in element order. -/
def anchorsOf (elements : List Element) : List Element :=
  elements.filter (fun el => el.name == "a" && attrIn el "href")

/-- File-scoped entry point of the `semantic-nav` rule
(`src/rules/semantic-nav.js`).  The `code` parameter is split into lines
by the source but never read afterwards. -/
def checkNavPatterns (elements : List Element) (_code : String) : List Issue :=
  if elements.any (fun el => el.name == "nav") then []
  else
    let anchorElements := anchorsOf elements
    if 3 ≤ anchorElements.length then navWindowScan anchorElements.length anchorElements
    else []

/-- First line of a source text, as `code.split('\n')[0]`. -/
def firstLine (code : String) : String :=
  String.mk (code.toList.takeWhile (fun c => c ≠ '\n'))

/-- JavaScript `String.prototype.trim` on the ASCII whitespace the claims
exercise. -/
def jsTrim (s : String) : String :=
  String.mk (((s.toList.dropWhile Char.isWhitespace).reverse.dropWhile Char.isWhitespace).reverse)

/-- Substring test on character lists, one starting position at a time. -/
def listContainsSub (pat : List Char) : List Char → Bool
  | [] => pat.isEmpty
  | c :: rest => pat.isPrefixOf (c :: rest) || listContainsSub pat rest

/-- Models `code.toLowerCase().includes('<!doctype')`. -/
def includesDoctype (code : String) : Bool :=
  listContainsSub "<!doctype".toList (code.toList.map Char.toLower)

/-- The missing-main issue of `checkLandmarks`. -/
def mkLandmarkMain (code : String) : Issue :=
  { ruleId := "landmark-regions", severity := "warning"
    message := "Page is missing a <main> landmark — screen readers cannot identify the primary content"
    line := 1, sourceLine := jsTrim (firstLine code)
    fix := "Wrap the primary content in a <main> element" }

/-- The missing-header issue of `checkLandmarks`. -/
def mkLandmarkHeader (code : String) : Issue :=
  { ruleId := "landmark-regions", severity := "warning"
    message := "Page is missing a <header> landmark for site-wide navigation and branding"
    line := 1, sourceLine := jsTrim (firstLine code)
    fix := "Add a <header> element wrapping the site navigation and branding" }

/-- The missing-footer issue of `checkLandmarks`. -/
def mkLandmarkFooter (code : String) : Issue :=
  { ruleId := "landmark-regions", severity := "warning"
    message := "Page is missing a <footer> landmark for page/site footer content"
    line := 1, sourceLine := jsTrim (firstLine code)
    fix := "Add a <footer> element wrapping the page footer content" }

/-- The role-collection step of `checkLandmarks` for one element:
`if (el.attributes['role']) presentRoles.add(el.attributes['role'].toLowerCase())`.
A truthy role that is the boolean marker (valueless JSX `role`) makes
`toLowerCase()` throw a TypeError. -/
def collectRole (el : Element) : Except String (Option String) :=
  match attrVal el "role" with
  | some (AttrVal.str s) =>
    if s ≠ "" then Except.ok (some (jsToLower s)) else Except.ok none
  | some AttrVal.boolTrue =>
    Except.error "TypeError: role.toLowerCase is not a function"
  | none => Except.ok none

/-- The collection loop of `checkLandmarks` over all elements: the first
element with a boolean truthy role throws, aborting the whole check. -/
def presentRolesOf : List Element → Except String (List String)
  | [] => Except.ok []
  | el :: rest =>
    match collectRole el with
    | Except.error msg => Except.error msg
    | Except.ok r =>
      match presentRolesOf rest with
      | Except.error msg => Except.error msg
      | Except.ok rs =>
        Except.ok (match r with | some s => s :: rs | none => rs)

/-- The non-throwing remainder of `checkLandmarks`
(`landmark-regions.js`), given the collected role set: gate on the
page-likeness heuristic, then emit at most one issue per missing region
kind, each at line 1. -/
def checkLandmarksCore (elements : List Element) (presentRoles : List String)
    (code : String) : List Issue :=
  let presentLandmarks := elements.map (fun el => el.name)
  let isPageLike := presentLandmarks.contains "body" || presentLandmarks.contains "html"
    || includesDoctype code
  if !isPageLike then []
  else
    let hasMain := presentLandmarks.contains "main" || presentRoles.contains "main"
    let hasHeader := presentLandmarks.contains "header" || presentRoles.contains "banner"
    let hasFooter := presentLandmarks.contains "footer" || presentRoles.contains "contentinfo"
    (if !hasMain then [mkLandmarkMain code] else [])
      ++ (if !hasHeader && (presentLandmarks.contains "nav" || presentLandmarks.contains "body")
          then [mkLandmarkHeader code] else [])
      ++ (if !hasFooter && presentLandmarks.contains "body"
          then [mkLandmarkFooter code] else [])

/-- File-scoped entry point of the `landmark-regions` rule
(`landmark-regions.js`): collect present tag names and truthy lowercased
role values — throwing on a boolean truthy role, before the
page-likeness gate — then emit at most one issue per missing region
kind, each at line 1. -/
def checkLandmarks (elements : List Element) (code : String) : Except String (List Issue) :=
  match presentRolesOf elements with
  | Except.error msg => Except.error msg
  | Except.ok presentRoles => Except.ok (checkLandmarksCore elements presentRoles code)

/-- The rule registry of `src/rules/index.js`, in registry order. -/
def imgAlt : Rule := { id := "img-alt", check := imgAltCheck }

/-- Registry entry for `button-content`. -/
def buttonContent : Rule := { id := "button-content", check := buttonContentCheck }

/-- Registry entry for `no-div-button`. -/
def noDivButton : Rule := { id := "no-div-button", check := noDivButtonCheck }

/-- Registry entry for `form-label`. -/
def formLabel : Rule := { id := "form-label", check := formLabelCheck }

/-- Registry entry for `heading-order`; its element-scoped `check` always
returns null. -/
def headingOrder : Rule :=
  { id := "heading-order", check := fun _ => none, checkHeadings := some checkHeadings }

/-- Registry entry for `anchor-content`. -/
def anchorContent : Rule := { id := "anchor-content", check := anchorContentCheck }

/-- Registry entry for `no-autofocus`. -/
def noAutofocus : Rule := { id := "no-autofocus", check := noAutofocusCheck }

/-- Registry entry for `semantic-nav`; its element-scoped `check` always
returns null. -/
def semanticNav : Rule :=
  { id := "semantic-nav", check := fun _ => none, checkNavPatterns := some checkNavPatterns }

/-- Registry entry for `aria-valid`; the engine field holds the total
restriction (see `ariaValidCheckTotal`). -/
def ariaValid : Rule := { id := "aria-valid", check := ariaValidCheckTotal }

/-- Registry entry for `keyboard-handlers`. -/
def keyboardHandlers : Rule := { id := "keyboard-handlers", check := keyboardHandlersCheck }

/-- Registry entry for `landmark-regions`; its element-scoped `check`
always returns null. -/
def landmarkRegions : Rule :=
  { id := "landmark-regions", check := fun _ => none, checkLandmarks := some checkLandmarks }

/-- Registry entry for `aria-hidden-focus`. -/
def ariaHiddenFocus : Rule := { id := "aria-hidden-focus", check := ariaHiddenFocusCheck }

/-- Registry entry for `hover-only`. -/
def hoverOnly : Rule := { id := "hover-only", check := hoverOnlyCheck }

/-- Registry entry for `disabled-state`. -/
def disabledState : Rule := { id := "disabled-state", check := disabledStateCheck }

/-- Registry entry for `tabindex-positive`. -/
def tabindexPositive : Rule := { id := "tabindex-positive", check := tabindexPositiveCheck }

/-- The ordered `allRules` list of `src/rules/index.js`. -/
def allRules : List Rule :=
  [imgAlt, buttonContent, noDivButton, formLabel, headingOrder, anchorContent,
   noAutofocus, semanticNav, ariaValid, keyboardHandlers, landmarkRegions,
   ariaHiddenFocus, hoverOnly, disabledState, tabindexPositive]

/-- Element phase of `analyzeFile` (`src/cli.js`): for every element, run
every rule's element-scoped check in order and keep the non-null
results. -/
def elementPhase (elements : List Element) (rules : List Rule) : List Issue :=
  elements.flatMap (fun el => rules.filterMap (fun r => r.check el))

/-- File phase of `analyzeFile`: a single loop over the rules that
dispatches exactly two file-scoped checks, keyed on the rule id and the
presence of the method — `heading-order`/`checkHeadings` and
`semantic-nav`/`checkNavPatterns`.  No other file-scoped method is ever
called. -/
def filePhase (elements : List Element) (headings : List Heading) (code : String)
    (rules : List Rule) : List Issue :=
  rules.flatMap (fun r =>
    (if r.id == "heading-order" then
      match r.checkHeadings with
      | some f => f headings
      | none => []
     else [])
    ++ (if r.id == "semantic-nav" then
      match r.checkNavPatterns with
      | some f => f elements code
      | none => []
     else []))

/-- All issues of a file in detection order: element phase first, then
file phase. -/
def collectIssues (elements : List Element) (headings : List Heading) (code : String)
    (rules : List Rule) : List Issue :=
  elementPhase elements rules ++ filePhase elements headings code rules

/-- The comparator `(a, b) => a.line - b.line` of the final sort, as a
boolean order. -/
def issueLE (a b : Issue) : Bool :=
  a.line ≤ b.line

/-- The rule-running core of `analyzeFile` (`src/cli.js`), after parsing:
run both phases, then sort by line number.  `Array.prototype.sort` is
specified stable, which a merge sort realizes. -/
def analyzeFile (elements : List Element) (headings : List Heading) (code : String)
    (rules : List Rule) : List Issue :=
  (collectIssues elements headings code rules).mergeSort issueLE

/-- Aggregate outcome of the fix orchestrator for one file. -/
structure FixCounts where
  fixed : Nat
  failed : Nat
deriving DecidableEq, Repr

/-- The one-invocation-per-issue loop of `src/copilot-bridge.js`: the
oracle `ok k` is the exit status of the k-th spawned individual agent
invocation.  Returns the counts together with the number of individual
invocations spawned. -/
def oneByOneLoop (ok : Nat → Bool) : Nat → List Issue → FixCounts × Nat
  | _, [] => (⟨0, 0⟩, 0)
  | k, _ :: rest =>
    let r := oneByOneLoop ok (k + 1) rest
    if ok k then (⟨r.1.fixed + 1, r.1.failed⟩, r.2 + 1)
    else (⟨r.1.fixed, r.1.failed + 1⟩, r.2 + 1)

/-- `fixBatchWithCopilot` (`src/copilot-bridge.js`): in dry-run report
every issue fixed without spawning; on batched success mark every issue
fixed; on batched failure fall back to the one-per-issue loop.
`batchOk` is the exit status of the single batched invocation. -/
def fixBatchWithCopilot (issues : List Issue) (dryRun batchOk : Bool)
    (ok : Nat → Bool) : FixCounts × Nat :=
  if dryRun then (⟨issues.length, 0⟩, 0)
  else if batchOk then (⟨issues.length, 0⟩, 0)
  else oneByOneLoop ok 0 issues

/-- `fixFileIssues` (`src/copilot-bridge.js`): batch when the file has
more than one issue and batching is not disabled, otherwise invoke once
per issue directly. -/
def fixFileIssues (issues : List Issue) (dryRun oneByOne batchOk : Bool)
    (ok : Nat → Bool) : FixCounts × Nat :=
  if 1 < issues.length && !oneByOne then fixBatchWithCopilot issues dryRun batchOk ok
  else if dryRun then (⟨issues.length, 0⟩, 0)
  else oneByOneLoop ok 0 issues

/-- Character class `[\s>/]` of the tag pattern in `parseHTML`
(`src/parsers/html-parser.js`); the JavaScript `\s` class on the
characters that occur in markup. -/
def tagTermChar (c : Char) : Bool :=
  c == ' ' || c == '\t' || c == '\n' || c == '\r' || c == '>' || c == '/'

/-- Case-insensitive match of `name` against a prefix of `rest`, followed
by one terminator character. -/
def namePrefixThenTerm : List Char → List Char → Bool
  | [], c :: _ => tagTermChar c
  | [], [] => false
  | n :: ns, c :: cs => (n.toLower == c.toLower) && namePrefixThenTerm ns cs
  | _ :: _, [] => false

/-- Whether the pattern `<name[\s>/]` (flags `gi`) matches at position `i`
of the source. -/
def matchAt (html name : String) (i : Nat) : Bool :=
  match html.toList.drop i with
  | '<' :: rest => namePrefixThenTerm name.toList rest
  | _ => false

/-- Forward scan for the first pattern match at or after position `i`,
with explicit fuel. -/
def findFromGo (html name : String) : Nat → Nat → Option Nat
  | _, 0 => none
  | i, fuel + 1 => if matchAt html name i then some i else findFromGo html name (i + 1) fuel

/-- The position-recovery search of `onopentag` in `parseHTML`: the first
match of `<name[\s>/]` whose index is at or after `currentIndex`.  Tag
names contain no `<`, whitespace, `>` or `/`, so matches of the pattern
never overlap and the `exec` loop of the source finds exactly the least
matching index at or after the cursor. -/
def findFrom (html name : String) (start : Nat) : Option Nat :=
  findFromGo html name start (html.length - start)

/-- Offsets of line starts: 0 plus one offset after every newline, which
is the cumulative line-length sum the source computes from
`html.split('\n')`. -/
def lineOffsetsGo : List Char → Nat → List Nat
  | [], _ => []
  | c :: rest, i => if c = '\n' then (i + 1) :: lineOffsetsGo rest (i + 1) else lineOffsetsGo rest (i + 1)

/-- The `lineOffsets` table of `parseHTML`. -/
def lineOffsets (html : String) : List Nat :=
  0 :: lineOffsetsGo html.toList 0

/-- The downward loop of `getLineFromIndex`: for `i` from `k - 1` down to
0, return `i + 1` for the first `i` with `index ≥ lineOffsets[i]`;
default 1. -/
def getLineAux (offsets : List Nat) (index : Nat) : Nat → Nat
  | 0 => 1
  | i + 1 => if offsets.getD i 0 ≤ index then i + 1 else getLineAux offsets index i

/-- `getLineFromIndex` of `parseHTML`: 1-based line of a character
offset. -/
def getLineFromIndex (html : String) (index : Nat) : Nat :=
  getLineAux (lineOffsets html) index (lineOffsets html).length

/-- The cursor discipline of `onopentag` across a stream of open-tag
events (the tag names, in event order): search from the cursor, and on a
match advance the cursor to one past the match index.  Returns the match
index assigned to each event. -/
def recoverIdxFrom (html : String) : Nat → List String → List (Option Nat)
  | _, [] => []
  | cur, name :: rest =>
    match findFrom html name cur with
    | some idx => some idx :: recoverIdxFrom html (idx + 1) rest
    | none => none :: recoverIdxFrom html cur rest

/-- Line numbers assigned to a stream of open-tag events; an unmatched
event gets line 0, as in the source. -/
def assignedLines (html : String) (events : List String) : List Nat :=
  (recoverIdxFrom html 0 events).map (fun oi =>
    match oi with
    | some i => getLineFromIndex html i
    | none => 0)

/-- Skip decision on one (current, previous) heading pair, for the
spec-side restatement below. -/
def headingSkipF (q : Heading × Heading) : Option Issue :=
  if q.2.level + 1 < q.1.level then some (mkSkipIssue q.2.level q.1) else none

/-- Spec-side restatement of the heading-sequence property, for the
refinement comparison of claim C6: one skipped-level issue per adjacent
pair whose level jumps by more than 1, and nothing for the first
heading. -/
def headingSkipsSpec (hs : List Heading) : List Issue :=
  (hs.tail.zip hs).filterMap headingSkipF

/-- Fixture issue used by concrete instantiations below. -/
def demoIssue (n : Int) : Issue :=
  { ruleId := "img-alt", severity := "error", message := "m", line := n, sourceLine := "s", fix := "f" }

/-- Fixture: a button that spreads an attribute bag and has neither text
content nor any accessible-name attribute. -/
def spreadButton : Element :=
  { name := "button", rawName := "button", attributes := [], hasAttributes := ["...spread"]
    hasTextChildren := false, line := 5, column := 2, sourceLine := "<button />", selfClosing := true }

/-- Fixture: an anchor with an href that spreads an attribute bag and has
neither text content nor any accessible-name attribute. -/
def spreadAnchor : Element :=
  { name := "a", rawName := "a", attributes := [("href", AttrVal.str "/about")]
    hasAttributes := ["...spread", "href"]
    hasTextChildren := false, line := 7, column := 2, sourceLine := "<a />", selfClosing := true }

/-- Fixture: a disabled button whose only explanation attribute is the
camelCase `ariaLabel`. -/
def camelDisabledButton : Element :=
  { name := "button", rawName := "button", attributes := [("ariaLabel", AttrVal.str "Save")]
    hasAttributes := ["disabled", "ariaLabel"]
    hasTextChildren := true, line := 4, column := 0, sourceLine := "<button disabled />", selfClosing := false }

/-- Fixture: the same disabled button with the hyphenated `aria-label`
spelling instead. -/
def hyphenDisabledButton : Element :=
  { name := "button", rawName := "button", attributes := [("aria-label", AttrVal.str "Save")]
    hasAttributes := ["disabled", "aria-label"]
    hasTextChildren := true, line := 4, column := 0, sourceLine := "<button disabled />", selfClosing := false }

/-- Fixture: an anchor with an href at a given line. -/
def mkAnchor (l : Int) : Element :=
  { name := "a", rawName := "a", attributes := [("href", AttrVal.str "/x")]
    hasAttributes := ["href"]
    hasTextChildren := true, line := l, column := 0, sourceLine := "<a href>", selfClosing := false }

/-- Fixture: a bare `<nav>` element. -/
def navEl : Element :=
  { name := "nav", rawName := "nav", attributes := [], hasAttributes := []
    hasTextChildren := true, line := 2, column := 0, sourceLine := "<nav>", selfClosing := false }

/-- Fixture file for the clustering heuristic: five unwrapped anchors
whose first qualifying window of three starts at the third anchor. -/
def demoNavFile : List Element :=
  [mkAnchor 1, mkAnchor 100, mkAnchor 200, mkAnchor 205, mkAnchor 210]

/-- Fixture heading list `[h1, h2, h4]`. -/
def demoHeadings : List Heading :=
  [⟨1, 10, "<h1>Title</h1>"⟩, ⟨2, 20, "<h2>Part</h2>"⟩, ⟨4, 30, "<h4>Deep</h4>"⟩]

/-- Fixture: a div whose tabindex is the dynamic-expression
placeholder. -/
def exprTabindexDiv : Element :=
  { name := "div", rawName := "div", attributes := [("tabindex", AttrVal.str "{expression}")]
    hasAttributes := ["tabindex"]
    hasTextChildren := false, line := 9, column := 0, sourceLine := "<div>", selfClosing := false }

/-- Fixture: a bare `<body>` element, making a file page-like while
missing every landmark region. -/
def bodyEl : Element :=
  { name := "body", rawName := "body", attributes := [], hasAttributes := []
    hasTextChildren := false, line := 1, column := 0, sourceLine := "<body>", selfClosing := false }

/-- Fixture: a div with a valueless (boolean) role attribute, as JSX
`<div role />` produces — the input on which `aria-valid` and
`checkLandmarks` throw. -/
def bareRoleDiv : Element :=
  { name := "div", rawName := "div"
    attributes := [("role", AttrVal.boolTrue), ("aria-bogus", AttrVal.str "x")]
    hasAttributes := ["role", "aria-bogus"]
    hasTextChildren := true, line := 8, column := 0, sourceLine := "<div>", selfClosing := false }

/-- Fixture: a div carrying both an invalid role value and an invalid
aria-* attribute. -/
def roleBogusDiv : Element :=
  { name := "div", rawName := "div"
    attributes := [("role", AttrVal.str "bogus"), ("aria-bogus", AttrVal.str "x")]
    hasAttributes := ["role", "aria-bogus"]
    hasTextChildren := true, line := 6, column := 0, sourceLine := "<div>", selfClosing := false }

/-- Both components of `oneByOneLoop`: it spawns exactly one individual
invocation per issue, and every issue is judged exactly once as fixed or
failed. -/
theorem oneByOneLoop_spec (ok : Nat → Bool) :
    ∀ (k : Nat) (issues : List Issue),
      (oneByOneLoop ok k issues).2 = issues.length
      ∧ (oneByOneLoop ok k issues).1.fixed + (oneByOneLoop ok k issues).1.failed = issues.length := by
  intro k issues
  induction issues generalizing k with
  | nil => simp [oneByOneLoop]
  | cons i rest ih =>
    have h := ih (k + 1)
    by_cases hk : ok k = true
    · simp [oneByOneLoop, hk, h.1]
      omega
    · simp [oneByOneLoop, hk, h.1]
      omega

/-- C4 (confirmed): when the batched invocation for a file with exactly 3
issues fails (non-zero exit, not a dry run), the orchestrator performs
exactly 3 subsequent individual invocations, each independently judged by
its own exit status, and the returned fixed/failed counts sum to 3. -/
theorem batch_failure_three_issues (issues : List Issue) (ok : Nat → Bool)
    (h3 : issues.length = 3) :
    (fixBatchWithCopilot issues false false ok).2 = 3
    ∧ (fixBatchWithCopilot issues false false ok).1.fixed
        + (fixBatchWithCopilot issues false false ok).1.failed = 3
    ∧ (fixBatchWithCopilot issues false false ok).1.fixed
        = ((List.range 3).filter ok).length := by
  obtain ⟨a, b, c, rfl⟩ := List.length_eq_three.mp h3
  refine ⟨?_, ?_, ?_⟩
  · simpa using (oneByOneLoop_spec ok 0 [a, b, c]).1
  · simpa using (oneByOneLoop_spec ok 0 [a, b, c]).2
  · have hr : List.range 3 = [0, 1, 2] := by decide
    cases h0 : ok 0 <;> cases h1 : ok 1 <;> cases h2 : ok 2 <;>
      simp [fixBatchWithCopilot, oneByOneLoop, h0, h1, h2, hr]

/-- Witness for C4 at a concrete three-issue file and a concrete oracle
in which only the second individual invocation succeeds. -/
theorem batch_failure_three_issues_witness :
    [demoIssue 1, demoIssue 2, demoIssue 3].length = 3
    ∧ (fixBatchWithCopilot [demoIssue 1, demoIssue 2, demoIssue 3] false false
        (fun k => k == 1)).2 = 3 :=
  ⟨rfl, (batch_failure_three_issues [demoIssue 1, demoIssue 2, demoIssue 3]
    (fun k => k == 1) rfl).1⟩

/-- C2 counterexample: a `<button>` (resp. `<a href>`) element with the
spread marker, no text descendant and no accessible-name attribute is NOT
flagged by `button-content` (resp. `anchor-content`) — the spread check
returns null before the text-content test runs, contradicting the claim
that the text-content rule still produces an issue. -/
theorem spread_button_not_flagged :
    hasAttr spreadButton "...spread" = true
    ∧ spreadButton.hasTextChildren = false
    ∧ buttonContentCheck spreadButton = none
    ∧ hasAttr spreadAnchor "...spread" = true
    ∧ attrIn spreadAnchor "href" = true
    ∧ spreadAnchor.hasTextChildren = false
    ∧ anchorContentCheck spreadAnchor = none := by
  decide

/-- C2 (corrected): an element carrying the spread marker is exempt from
every rule that inspects it — including the text-content rules
`button-content` and `anchor-content`, whose spread guard precedes their
text test — so no attribute-presence rule and no text-content rule flags
it. -/
theorem spread_exempts_every_rule (e : Element) (h : hasAttr e "...spread" = true) :
    buttonContentCheck e = none
    ∧ anchorContentCheck e = none
    ∧ imgAltCheck e = none
    ∧ noDivButtonCheck e = none
    ∧ formLabelCheck e = none
    ∧ ariaValidCheck e = Except.ok none
    ∧ keyboardHandlersCheck e = none
    ∧ ariaHiddenFocusCheck e = none
    ∧ hoverOnlyCheck e = none
    ∧ disabledStateCheck e = none
    ∧ tabindexPositiveCheck e = none := by
  refine ⟨?_, ?_, ?_, ?_, ?_, ?_, ?_, ?_, ?_, ?_, ?_⟩ <;>
    simp [buttonContentCheck, anchorContentCheck, imgAltCheck, noDivButtonCheck,
      formLabelCheck, ariaValidCheck, keyboardHandlersCheck, ariaHiddenFocusCheck,
      hoverOnlyCheck, disabledStateCheck, tabindexPositiveCheck, h]

/-- Witness for C2 at the concrete spread button. -/
theorem spread_exempts_every_rule_witness :
    hasAttr spreadButton "...spread" = true
    ∧ imgAltCheck spreadButton = none :=
  ⟨rfl, (spread_exempts_every_rule spreadButton rfl).2.2.1⟩

/-- C3 counterexample: a disabled button whose only explanation is the
camelCase `ariaLabel` IS flagged by `disabled-state`, while the same
button with the hyphenated `aria-label` is not — the rule does not treat
the camelCase spelling the same as the hyphenated one. -/
theorem disabled_state_camelCase_not_checked :
    disabledStateCheck camelDisabledButton = some (mkDisabledIssue camelDisabledButton)
    ∧ disabledStateCheck hyphenDisabledButton = none := by
  decide

/-- C3 (corrected): `form-label` does conclude absence only after checking
both spellings of `aria-label`/`aria-labelledby`, but `disabled-state`
consults only the hyphenated spellings (plus `title`), so a disabled
control carrying only the camelCase spellings is still flagged as lacking
an explanation. -/
theorem attr_spelling_per_rule (e : Element) :
    (attrIn e "ariaLabel" = true → formLabelCheck e = none)
    ∧ (attrIn e "ariaLabelledby" = true → formLabelCheck e = none)
    ∧ (hasAttr e "...spread" = false →
        ["button", "input", "select", "textarea", "fieldset"].contains e.name = true →
        hasAttr e "disabled" = true →
        hasAttr e "ariaLabel" = true →
        hasAttr e "ariaDescribedby" = true →
        hasAttr e "title" = false →
        hasAttr e "aria-label" = false →
        hasAttr e "aria-describedby" = false →
        disabledStateCheck e = some (mkDisabledIssue e)) := by
  refine ⟨?_, ?_, ?_⟩
  · intro h
    simp [formLabelCheck, h]
  · intro h
    simp [formLabelCheck, h]
  · intro h1 h2 h3 h4 h5 h6 h7 h8
    simp at h2
    simp [disabledStateCheck, h1, h3, h6, h7, h8]
    tauto

/-- Witness for C3 at the concrete camelCase-labelled disabled button. -/
theorem attr_spelling_per_rule_witness :
    hasAttr camelDisabledButton "ariaLabel" = true
    ∧ formLabelCheck camelDisabledButton = none
    ∧ disabledStateCheck camelDisabledButton = some (mkDisabledIssue camelDisabledButton) := by
  refine ⟨rfl, ?_, ?_⟩
  · exact (attr_spelling_per_rule camelDisabledButton).1 rfl
  · decide

/-- The heading walk with a positive previous level agrees with the
adjacent-pair restatement. -/
theorem checkHeadingsGo_spec (hs : List Heading) :
    ∀ p : Heading, 1 ≤ p.level → (∀ h ∈ hs, 1 ≤ h.level) →
      checkHeadingsGo p.level hs = (hs.zip (p :: hs)).filterMap headingSkipF := by
  induction hs with
  | nil => intro p _ _; simp [checkHeadingsGo]
  | cons h t ih =>
    intro p hp hpos
    have hh : 1 ≤ h.level := hpos h (by simp)
    have hrec := ih h hh (fun x hx => hpos x (by simp [hx]))
    have hp0 : 0 < p.level := hp
    by_cases hc : p.level + 1 < h.level
    · simp [checkHeadingsGo, headingSkipF, hp0, hc, hrec]
    · simp [checkHeadingsGo, headingSkipF, hp0, hc, hrec]

/-- C6 (confirmed): the heading-sequence check reports a skipped-level
issue at a heading exactly when its level exceeds the immediately
preceding level by more than 1, the first heading never triggers a skip,
`[h1, h2, h4]` yields exactly one issue anchored at the h4 line, and
`[h2, h3, h4]` yields none. -/
theorem heading_sequence_characterization :
    (∀ hs : List Heading, (∀ h ∈ hs, 1 ≤ h.level) →
      checkHeadings hs = headingSkipsSpec hs)
    ∧ (∀ (a b c : Int) (s1 s2 s3 : String),
      checkHeadings [⟨1, a, s1⟩, ⟨2, b, s2⟩, ⟨4, c, s3⟩] = [mkSkipIssue 2 ⟨4, c, s3⟩]
      ∧ checkHeadings [⟨2, a, s1⟩, ⟨3, b, s2⟩, ⟨4, c, s3⟩] = []) := by
  constructor
  · intro hs hpos
    cases hs with
    | nil => simp [checkHeadings, headingSkipsSpec]
    | cons h0 rest =>
      have h0pos : 1 ≤ h0.level := hpos h0 (by simp)
      have hrest : ∀ h ∈ rest, 1 ≤ h.level := fun x hx => hpos x (by simp [hx])
      have hrec := checkHeadingsGo_spec rest h0 h0pos hrest
      simpa [checkHeadings, checkHeadingsGo, headingSkipsSpec] using hrec
  · intro a b c s1 s2 s3
    constructor <;> rfl

/-- Witness for C6 at the concrete `[h1, h2, h4]` heading list. -/
theorem heading_sequence_characterization_witness :
    (∀ h ∈ demoHeadings, 1 ≤ h.level)
    ∧ checkHeadings demoHeadings = headingSkipsSpec demoHeadings :=
  ⟨by decide, heading_sequence_characterization.1 demoHeadings (by decide)⟩

/-- C7 (confirmed): the tabindex-positive rule raises no issue when the
resolved tabindex value is the dynamic-expression placeholder or does not
parse to a number, and every issue it raises comes from a value that
parses to a number strictly greater than 0. -/
theorem tabindex_positive_cannot_evaluate :
    (∀ e : Element,
      jsOr (attrVal e "tabindex") (attrVal e "tabIndex") = some (AttrVal.str "{expression}") →
      tabindexPositiveCheck e = none)
    ∧ (∀ (e : Element) (v : AttrVal),
      jsOr (attrVal e "tabindex") (attrVal e "tabIndex") = some v →
      jsParseInt (valToString v) = none →
      tabindexPositiveCheck e = none)
    ∧ (∀ (e : Element) (i : Issue), tabindexPositiveCheck e = some i →
      ∃ (v : AttrVal) (n : Int),
        jsOr (attrVal e "tabindex") (attrVal e "tabIndex") = some v
        ∧ v ≠ AttrVal.str "{expression}"
        ∧ jsParseInt (valToString v) = some n
        ∧ 0 < n
        ∧ i = mkTabindexIssue e n) := by
  refine ⟨?_, ?_, ?_⟩
  · intro e h
    simp [tabindexPositiveCheck, h]
  · intro e v h hp
    simp [tabindexPositiveCheck, h, hp]
  · intro e i h
    cases hj : jsOr (attrVal e "tabindex") (attrVal e "tabIndex") with
    | none =>
      simp [tabindexPositiveCheck, hj, truthyOpt] at h
    | some w =>
      simp only [tabindexPositiveCheck, hj, Option.getD_some] at h
      split at h
      · exact absurd h (by simp)
      split at h
      · exact absurd h (by simp)
      split at h
      · exact absurd h (by simp)
      next hguard =>
      split at h
      next hparse => exact absurd h (by simp)
      next n hparse =>
      split at h
      next hpos =>
        have hne : w ≠ AttrVal.str "{expression}" := by
          intro hv
          rw [hv] at hguard
          simp at hguard
        exact ⟨w, n, rfl, hne, hparse, hpos, by simpa using h.symm⟩
      next hpos => exact absurd h (by simp)

/-- Witness for C7 at the concrete element whose tabindex is the
dynamic-expression placeholder. -/
theorem tabindex_positive_cannot_evaluate_witness :
    jsOr (attrVal exprTabindexDiv "tabindex") (attrVal exprTabindexDiv "tabIndex")
      = some (AttrVal.str "{expression}")
    ∧ tabindexPositiveCheck exprTabindexDiv = none :=
  ⟨rfl, tabindex_positive_cannot_evaluate.1 exprTabindexDiv rfl⟩

/-- If no window of three consecutive anchors spans at most 15 lines, the
window scan emits nothing. -/
theorem navWindowScan_none (count : Nat) :
    ∀ l : List Element,
      (∀ (k : Nat) (b1 b3 : Element), l[k]? = some b1 → l[k + 2]? = some b3 →
        ¬(b3.line - b1.line ≤ 15)) →
      navWindowScan count l = [] := by
  intro l
  induction l with
  | nil => intro _; rfl
  | cons a1 t ih =>
    intro hfail
    cases t with
    | nil => rfl
    | cons a2 t2 =>
      cases t2 with
      | nil => rfl
      | cons a3 rest =>
        have h0 := hfail 0 a1 a3 (by simp) (by simp)
        have hrec := ih (fun k b1 b3 hk1 hk3 => hfail (k + 1) b1 b3 (by simpa using hk1) (by simpa using hk3))
        simp [navWindowScan, h0, hrec]

/-- The window scan emits exactly one issue, anchored at the first anchor
of the first qualifying window, and stops there. -/
theorem navWindowScan_first (count : Nat) :
    ∀ (j : Nat) (l : List Element) (a1 a3 : Element),
      l[j]? = some a1 → l[j + 2]? = some a3 → a3.line - a1.line ≤ 15 →
      (∀ k < j, ∀ b1 b3 : Element, l[k]? = some b1 → l[k + 2]? = some b3 →
        ¬(b3.line - b1.line ≤ 15)) →
      navWindowScan count l = [mkNavIssue count a1] := by
  intro j
  induction j with
  | zero =>
    intro l a1 a3 h1 h3 hspan _
    cases l with
    | nil => simp at h1
    | cons c1 t =>
      cases t with
      | nil => simp at h3
      | cons c2 t2 =>
        cases t2 with
        | nil => simp at h3
        | cons c3 rest =>
          simp at h1 h3
          subst h1 h3
          simp [navWindowScan, hspan]
  | succ j ih =>
    intro l a1 a3 h1 h3 hspan hmin
    cases l with
    | nil => simp at h1
    | cons c1 t =>
      cases t with
      | nil => simp at h3
      | cons c2 t2 =>
        cases t2 with
        | nil => simp at h3
        | cons c3 rest =>
          have h0 := hmin 0 (Nat.succ_pos j) c1 c3 (by simp) (by simp)
          have hrec := ih (c2 :: c3 :: rest) a1 a3 (by simpa using h1) (by simpa using h3) hspan
            (fun k hk b1 b3 hk1 hk3 =>
              hmin (k + 1) (Nat.succ_lt_succ hk) b1 b3 (by simpa using hk1) (by simpa using hk3))
          simp [navWindowScan, h0, hrec]

/-- C5 (confirmed): a `<nav>` anywhere suppresses the clustering
heuristic entirely; otherwise, when the j-th window of three consecutive
qualifying anchors is the first spanning at most the 15-line threshold,
exactly one issue is emitted for the whole file, anchored at that
window's first anchor, and no further windows are scanned; and when no
window qualifies, nothing is emitted. -/
theorem semantic_nav_first_match :
    (∀ (elements : List Element) (code : String),
      elements.any (fun el => el.name == "nav") = true →
      checkNavPatterns elements code = [])
    ∧ (∀ (elements : List Element) (code : String) (j : Nat) (a1 a3 : Element),
      elements.any (fun el => el.name == "nav") = false →
      (anchorsOf elements)[j]? = some a1 →
      (anchorsOf elements)[j + 2]? = some a3 →
      a3.line - a1.line ≤ 15 →
      (∀ k < j, ∀ b1 b3 : Element, (anchorsOf elements)[k]? = some b1 →
        (anchorsOf elements)[k + 2]? = some b3 → ¬(b3.line - b1.line ≤ 15)) →
      checkNavPatterns elements code = [mkNavIssue (anchorsOf elements).length a1])
    ∧ (∀ (elements : List Element) (code : String),
      elements.any (fun el => el.name == "nav") = false →
      (∀ (k : Nat) (b1 b3 : Element), (anchorsOf elements)[k]? = some b1 →
        (anchorsOf elements)[k + 2]? = some b3 → ¬(b3.line - b1.line ≤ 15)) →
      checkNavPatterns elements code = []) := by
  refine ⟨?_, ?_, ?_⟩
  · intro elements code hnav
    simp [checkNavPatterns, hnav]
  · intro elements code j a1 a3 hnav h1 h3 hspan hmin
    have hlen : j + 2 < (anchorsOf elements).length := by
      have h3' := h3
      rw [List.getElem?_eq_some_iff] at h3'
      exact h3'.1
    have h3le : 3 ≤ (anchorsOf elements).length := by omega
    have hscan := navWindowScan_first (anchorsOf elements).length j (anchorsOf elements)
      a1 a3 h1 h3 hspan hmin
    simp [checkNavPatterns, hnav, h3le, hscan]
  · intro elements code hnav hfail
    have hscan := navWindowScan_none (anchorsOf elements).length (anchorsOf elements) hfail
    simp [checkNavPatterns, hnav, hscan]

/-- Witness for C5: on the five-anchor fixture the first qualifying
window starts at the third anchor (line 200), and a file with a `<nav>`
is skipped. -/
theorem semantic_nav_first_match_witness :
    checkNavPatterns (navEl :: demoNavFile) "" = []
    ∧ checkNavPatterns demoNavFile "" = [mkNavIssue 5 (mkAnchor 200)] := by
  constructor
  · exact semantic_nav_first_match.1 (navEl :: demoNavFile) "" (by decide)
  · have hcount : (anchorsOf demoNavFile).length = 5 := by decide
    have h := semantic_nav_first_match.2.1 demoNavFile "" 2 (mkAnchor 200) (mkAnchor 210)
      (by decide) (by decide) (by decide) (by decide)
      (by
        intro k hk b1 b3 hb1 hb3
        have ha : anchorsOf demoNavFile = demoNavFile := by decide
        rw [ha] at hb1 hb3
        interval_cases k <;>
          (simp [demoNavFile] at hb1 hb3; subst hb1; subst hb3; decide)
      )
    rw [hcount] at h
    exact h

/-- The line comparator is transitive. -/
theorem issueLE_trans : ∀ a b c : Issue, issueLE a b → issueLE b c → issueLE a c := by
  intro a b c hab hbc
  simp [issueLE] at hab hbc ⊢
  omega

/-- The line comparator is total. -/
theorem issueLE_total : ∀ a b : Issue, issueLE a b || issueLE b a := by
  intro a b
  simp [issueLE]
  omega

/-- Filtering by a class on which the comparator always holds commutes
with the stable sort: such a class keeps its relative order. -/
theorem mergeSort_filter_eq (l : List Issue) (p : Issue → Bool)
    (hp : ∀ a b : Issue, p a = true → p b = true → issueLE a b = true) :
    (l.mergeSort issueLE).filter p = l.filter p := by
  have hXpair : (l.filter p).Pairwise (fun a b => issueLE a b = true) := by
    apply List.pairwise_of_forall_mem_list
    intro a ha b hb
    exact hp a b (List.of_mem_filter ha) (List.of_mem_filter hb)
  have hXsub : List.Sublist (l.filter p) (l.mergeSort issueLE) :=
    List.sublist_mergeSort issueLE_trans issueLE_total hXpair (List.filter_sublist l)
  have hXfix : (l.filter p).filter p = l.filter p := by
    apply List.filter_eq_self.mpr
    intro a ha
    exact List.of_mem_filter ha
  have hsub2 : List.Sublist (l.filter p) ((l.mergeSort issueLE).filter p) := by
    have := hXsub.filter p
    rwa [hXfix] at this
  have hperm : List.Perm ((l.mergeSort issueLE).filter p) (l.filter p) :=
    (List.mergeSort_perm l issueLE).filter p
  exact (hsub2.eq_of_length hperm.length_eq.symm).symm

/-- C8 (confirmed): the per-file issue list is sorted by non-decreasing
line number, and the sort is stable — for every line number, the issues
on that line appear exactly as in detection order (element rules before
file rules, rules in registry order). -/
theorem analyzeFile_sorted_stable (elements : List Element) (headings : List Heading)
    (code : String) (rules : List Rule) :
    (analyzeFile elements headings code rules).Pairwise (fun a b => a.line ≤ b.line)
    ∧ ∀ n : Int,
      (analyzeFile elements headings code rules).filter (fun i => i.line == n)
        = (collectIssues elements headings code rules).filter (fun i => i.line == n) := by
  constructor
  · have h := List.sorted_mergeSort issueLE_trans issueLE_total
      (collectIssues elements headings code rules)
    exact h.imp (fun hab => by simpa [issueLE] using hab)
  · intro n
    apply mergeSort_filter_eq
    intro a b ha hb
    simp at ha hb
    simp [issueLE, ha, hb]

/-- Bound for one rule list on one element: `filterMap` never yields more
issues than there are rules. -/
theorem elementPhase_length_le (elements : List Element) (rules : List Rule) :
    (elementPhase elements rules).length ≤ elements.length * rules.length := by
  induction elements with
  | nil => simp [elementPhase]
  | cons e t ih =>
    have hone : (rules.filterMap (fun r => r.check e)).length ≤ rules.length :=
      List.length_filterMap_le _ _
    simp only [elementPhase, List.flatMap_cons, List.length_append]
    have := ih
    simp only [elementPhase] at this
    calc (rules.filterMap (fun r => r.check e)).length + (t.flatMap (fun el => rules.filterMap (fun r => r.check el))).length
        ≤ rules.length + t.length * rules.length := Nat.add_le_add hone this
      _ = (t.length + 1) * rules.length := by ring
      _ = (e :: t).length * rules.length := by simp [Nat.add_comm]

/-- C10 counterexample: on a JSX element with a valueless `role`
attribute (the boolean marker, as `<div role />` produces), one
invocation of the aria-valid check returns neither null nor an Issue —
the source throws a TypeError at `role.toLowerCase()` — refuting the
claim that every invocation of an element-scoped check returns null or
exactly one Issue. -/
theorem aria_valid_throws_on_bare_role :
    ariaValidCheck bareRoleDiv = Except.error "TypeError: role.toLowerCase is not a function"
    ∧ (ariaValidCheck bareRoleDiv).toOption = none :=
  ⟨rfl, rfl⟩

/-- C10 (corrected): wherever a check returns normally the engine emits
at most one issue per (rule, element) pair — the element phase is
bounded by one issue per pair — and on an element with a string-valued
invalid role plus an invalid aria-* attribute, aria-valid returns only
the invalid-role issue (its checks run sequentially with early return);
but aria-valid does not always return: it throws a TypeError, instead of
returning null or an issue, exactly on a non-spread element whose role
attribute is the boolean marker. -/
theorem check_at_most_one_issue :
    (∀ (elements : List Element) (rules : List Rule),
      (elementPhase elements rules).length ≤ elements.length * rules.length)
    ∧ (∀ (e : Element) (s : String),
      hasAttr e "...spread" = false →
      attrVal e "role" = some (AttrVal.str s) →
      s ≠ "" →
      s ≠ "{expression}" →
      VALID_ROLES.contains (jsToLower s) = false →
      ariaValidCheck e = Except.ok (some (mkInvalidRoleIssue e (AttrVal.str s))))
    ∧ (∀ e : Element, (ariaValidCheck e).toOption = none ↔
      (hasAttr e "...spread" = false ∧ attrVal e "role" = some AttrVal.boolTrue)) := by
  refine ⟨elementPhase_length_le, ?_, ?_⟩
  · intro e s hspread hrole hs hexpr hcontains
    have hmem : ¬ jsToLower s ∈ VALID_ROLES := by
      simpa using hcontains
    simp [ariaValidCheck, hspread, hrole, truthyOpt, AttrVal.truthy, valToString, hs, hexpr, hmem]
  · intro e
    by_cases hspread : hasAttr e "...spread" = true
    · simp [ariaValidCheck, hspread, Except.toOption]
    · rw [Bool.not_eq_true] at hspread
      cases hrole : attrVal e "role" with
      | none =>
        simp only [ariaValidCheck, hspread, hrole, Bool.false_eq_true, if_false]
        constructor
        · intro hnone
          split at hnone <;> simp [Except.toOption] at hnone
        · rintro ⟨-, h2⟩
          cases h2
      | some v =>
        cases v with
        | boolTrue =>
          simp [ariaValidCheck, hspread, hrole, Except.toOption]
        | str s =>
          simp only [ariaValidCheck, hspread, hrole, Bool.false_eq_true, if_false]
          constructor
          · intro hnone
            split at hnone <;> simp [Except.toOption] at hnone
          · rintro ⟨-, h2⟩
            cases h2

/-- Witness for C10: the fixture div with `role="bogus"` and an invalid
`aria-bogus` attribute yields exactly the invalid-role issue. -/
theorem check_at_most_one_issue_witness :
    attrVal roleBogusDiv "role" = some (AttrVal.str "bogus")
    ∧ (attrVal roleBogusDiv "aria-bogus").isSome = true
    ∧ ariaValidCheck roleBogusDiv
        = Except.ok (some (mkInvalidRoleIssue roleBogusDiv (AttrVal.str "bogus"))) :=
  ⟨rfl, rfl, check_at_most_one_issue.2.1 roleBogusDiv "bogus"
    rfl rfl (by decide) (by decide) (by decide)⟩
/-- The role-collection step throws exactly on a boolean truthy role. -/
theorem collectRole_error_iff (el : Element) :
    (collectRole el).toOption = none ↔ (attrVal el "role" == some AttrVal.boolTrue) = true := by
  cases h : attrVal el "role" with
  | none => simp [collectRole, h, Except.toOption]
  | some v =>
    cases v with
    | boolTrue => simp [collectRole, h, Except.toOption]
    | str s =>
      simp only [collectRole, h]
      constructor
      · intro hnone
        split at hnone <;> simp [Except.toOption] at hnone
      · intro hb
        simp at hb

/-- The collection loop throws exactly when some element carries a
boolean truthy role. -/
theorem presentRolesOf_error_iff (elements : List Element) :
    (presentRolesOf elements).toOption = none ↔
    elements.any (fun el => attrVal el "role" == some AttrVal.boolTrue) = true := by
  induction elements with
  | nil => simp [presentRolesOf, Except.toOption]
  | cons el rest ih =>
    cases hc : collectRole el with
    | error msg =>
      have hb : (attrVal el "role" == some AttrVal.boolTrue) = true :=
        (collectRole_error_iff el).mp (by rw [hc]; rfl)
      simp [presentRolesOf, hc, hb, Except.toOption]
    | ok r =>
      cases hb : (attrVal el "role" == some AttrVal.boolTrue) with
      | true =>
        have := (collectRole_error_iff el).mpr hb
        rw [hc] at this
        simp [Except.toOption] at this
      | false =>
        cases hrest : presentRolesOf rest with
        | error msg =>
          have hany := ih.mp (by rw [hrest]; rfl)
          simp [presentRolesOf, hc, hrest, Except.toOption, hb, hany]
        | ok rs =>
          have hnotany :
              rest.any (fun el => attrVal el "role" == some AttrVal.boolTrue) = false := by
            cases hx : rest.any (fun el => attrVal el "role" == some AttrVal.boolTrue) with
            | true =>
              have := ih.mpr hx
              rw [hrest] at this
              simp [Except.toOption] at this
            | false => rfl
          simp [presentRolesOf, hc, hrest, Except.toOption, hb, hnotany]

/-- The non-throwing remainder always emits a sublist of the three
landmark issues, all anchored at line 1. -/
theorem checkLandmarksCore_props (elements : List Element) (presentRoles : List String)
    (code : String) :
    List.Sublist (checkLandmarksCore elements presentRoles code)
      [mkLandmarkMain code, mkLandmarkHeader code, mkLandmarkFooter code]
    ∧ (checkLandmarksCore elements presentRoles code).all (fun i => i.line == 1) = true := by
  constructor
  · simp only [checkLandmarksCore]
    split
    · exact List.nil_sublist _
    · split <;> split <;> split <;> simp
  · simp only [checkLandmarksCore]
    split
    · rfl
    · split <;> split <;> split <;> rfl

/-- C1 counterexample: on a page-like file (a bare `<body>`) with the
full registry active — `landmark-regions` included — the engine emits no
landmark issue at all, even though `checkLandmarks` itself would report
all three missing regions: `analyzeFile` never invokes it. -/
theorem landmark_check_not_invoked :
    checkLandmarks [bodyEl] "<body>"
      = Except.ok [mkLandmarkMain "<body>", mkLandmarkHeader "<body>", mkLandmarkFooter "<body>"]
    ∧ checkLandmarks [bodyEl] "<body>" ≠ Except.ok []
    ∧ (analyzeFile [bodyEl] [] "<body>" allRules).filter
        (fun i => i.ruleId == "landmark-regions") = [] := by
  refine ⟨rfl, ?_, ?_⟩
  · intro h
    have h1 : checkLandmarks [bodyEl] "<body>"
        = Except.ok [mkLandmarkMain "<body>", mkLandmarkHeader "<body>", mkLandmarkFooter "<body>"] := rfl
    rw [h1] at h
    simp at h
  · have hcollect : collectIssues [bodyEl] [] "<body>" allRules = [] := by decide
    simp [analyzeFile, hcollect]

/-- C1 (corrected): the engine runs only the `heading-order` and
`semantic-nav` file-scoped checks; it never reads any rule's
`checkLandmarks` entry, so replacing that entry arbitrarily in every rule
leaves the engine output unchanged.  `checkLandmarks` itself, when called
directly and returning normally, emits at most one issue per missing
region kind (main, banner, contentinfo), each anchored at line 1; it
throws a TypeError — instead of returning a list — exactly when some
element carries a valueless (boolean) truthy role attribute. -/
theorem engine_ignores_checkLandmarks :
    (∀ (elements : List Element) (headings : List Heading) (code : String)
      (rules : List Rule)
      (g : Rule → Option (List Element → String → Except String (List Issue))),
      analyzeFile elements headings code
        (rules.map (fun r => { r with checkLandmarks := g r }))
        = analyzeFile elements headings code rules)
    ∧ (∀ (elements : List Element) (code : String) (issues : List Issue),
      checkLandmarks elements code = Except.ok issues →
      List.Sublist issues [mkLandmarkMain code, mkLandmarkHeader code, mkLandmarkFooter code]
      ∧ issues.all (fun i => i.line == 1) = true)
    ∧ (∀ (elements : List Element) (code : String),
      (checkLandmarks elements code).toOption = none ↔
      elements.any (fun el => attrVal el "role" == some AttrVal.boolTrue) = true) := by
  refine ⟨?_, ?_, ?_⟩
  · intro elements headings code rules g
    simp only [analyzeFile, collectIssues, elementPhase, filePhase,
      List.filterMap_map, List.flatMap_map]
    rfl
  · intro elements code issues h
    simp only [checkLandmarks] at h
    cases hr : presentRolesOf elements with
    | error msg =>
      rw [hr] at h
      simp at h
    | ok roles =>
      rw [hr] at h
      simp at h
      rw [← h]
      exact checkLandmarksCore_props elements roles code
  · intro elements code
    cases hr : presentRolesOf elements with
    | error msg =>
      have hany := (presentRolesOf_error_iff elements).mp (by rw [hr]; rfl)
      simp [checkLandmarks, hr, Except.toOption, hany]
    | ok roles =>
      have hnotany :
          elements.any (fun el => attrVal el "role" == some AttrVal.boolTrue) = false := by
        cases hx : elements.any (fun el => attrVal el "role" == some AttrVal.boolTrue) with
        | true =>
          have := (presentRolesOf_error_iff elements).mpr hx
          rw [hr] at this
          simp [Except.toOption] at this
        | false => rfl
      simp [checkLandmarks, hr, Except.toOption, hnotany]

/-- Witness for C1 at the concrete `<body>` file: `checkLandmarks`
returns normally there and its result is a sublist of the three landmark
issues. -/
theorem engine_ignores_checkLandmarks_witness :
    checkLandmarks [bodyEl] "<body>"
      = Except.ok [mkLandmarkMain "<body>", mkLandmarkHeader "<body>", mkLandmarkFooter "<body>"]
    ∧ List.Sublist [mkLandmarkMain "<body>", mkLandmarkHeader "<body>", mkLandmarkFooter "<body>"]
        [mkLandmarkMain "<body>", mkLandmarkHeader "<body>", mkLandmarkFooter "<body>"] :=
  ⟨rfl, (engine_ignores_checkLandmarks.2.1 [bodyEl] "<body>"
      [mkLandmarkMain "<body>", mkLandmarkHeader "<body>", mkLandmarkFooter "<body>"] rfl).1⟩


/-- The fueled scan only returns positions at or after its starting
index. -/
theorem findFromGo_ge (html name : String) :
    ∀ (fuel i j : Nat), findFromGo html name i fuel = some j → i ≤ j := by
  intro fuel
  induction fuel with
  | zero => intro i j h; simp [findFromGo] at h
  | succ f ih =>
    intro i j h
    simp only [findFromGo] at h
    split at h
    · cases h
      exact Nat.le_refl _
    · have := ih (i + 1) j h
      omega

/-- The position-recovery search never looks behind the cursor. -/
theorem findFrom_ge (html name : String) (start j : Nat)
    (h : findFrom html name start = some j) : start ≤ j :=
  findFromGo_ge html name _ start j h

/-- Every index assigned from cursor `cur` onwards is at least `cur`. -/
theorem recoverIdxFrom_ge (html : String) :
    ∀ (events : List String) (cur x : Nat),
      x ∈ (recoverIdxFrom html cur events).filterMap id → cur ≤ x := by
  intro events
  induction events with
  | nil => intro cur x h; simp [recoverIdxFrom] at h
  | cons name rest ih =>
    intro cur x h
    simp only [recoverIdxFrom] at h
    cases hf : findFrom html name cur with
    | some idx =>
      rw [hf] at h
      simp only [List.filterMap_cons, id] at h
      rcases List.mem_cons.mp h with h | h
      · subst h
        exact findFrom_ge html name cur x hf
      · have hx := ih (idx + 1) x h
        have hge := findFrom_ge html name cur idx hf
        omega
    | none =>
      rw [hf] at h
      simp only [List.filterMap_cons, id] at h
      exact ih cur x h

/-- The assigned match indices are strictly increasing: the cursor
advances past each match start, and searches only forward. -/
theorem recoverIdx_strictMono (html : String) :
    ∀ (events : List String) (cur : Nat),
      ((recoverIdxFrom html cur events).filterMap id).Pairwise (fun a b => a < b) := by
  intro events
  induction events with
  | nil => intro cur; simp [recoverIdxFrom]
  | cons name rest ih =>
    intro cur
    simp only [recoverIdxFrom]
    cases hf : findFrom html name cur with
    | some idx =>
      simp only [List.filterMap_cons, id]
      refine List.Pairwise.cons ?_ (ih (idx + 1))
      intro b hb
      have := recoverIdxFrom_ge html rest (idx + 1) b hb
      omega
    | none =>
      simpa using ih cur

/-- The downward line scan never exceeds its counter bound. -/
theorem getLineAux_le (offsets : List Nat) (index : Nat) :
    ∀ k, getLineAux offsets index k ≤ k + 1 := by
  intro k
  induction k with
  | zero => simp [getLineAux]
  | succ i ih =>
    simp only [getLineAux]
    split
    · omega
    · omega

/-- The recovered line is monotone in the character offset. -/
theorem getLineAux_mono (offsets : List Nat) :
    ∀ (k index index' : Nat), index ≤ index' →
      getLineAux offsets index k ≤ getLineAux offsets index' k := by
  intro k
  induction k with
  | zero => intro _ _ _; simp [getLineAux]
  | succ i ih =>
    intro index index' hle
    simp only [getLineAux]
    split
    next hA =>
      split
      next hB => omega
      next hB => omega
    next hA =>
      split
      next hB => exact getLineAux_le offsets index i
      next hB => exact ih index index' hle

/-- `getLineFromIndex` is monotone in the index. -/
theorem getLineFromIndex_mono (html : String) (i j : Nat) (h : i ≤ j) :
    getLineFromIndex html i ≤ getLineFromIndex html j :=
  getLineAux_mono (lineOffsets html) (lineOffsets html).length i j h

/-- C9 (corrected): the search cursor advances monotonically past each
matched tag occurrence, so the match indices assigned to the events of
one file strictly increase and the recovered line numbers never
decrease; but two occurrences on one source line share a line number, so
lines are non-decreasing, not strictly increasing. -/
theorem position_recovery_monotone (html : String) (events : List String) :
    ((recoverIdxFrom html 0 events).filterMap id).Pairwise (fun a b => a < b)
    ∧ (((recoverIdxFrom html 0 events).filterMap id).map (getLineFromIndex html)).Pairwise
        (fun a b => a ≤ b) := by
  refine ⟨recoverIdx_strictMono html events 0, ?_⟩
  exact (recoverIdx_strictMono html events 0).map (getLineFromIndex html)
    (fun a b hab => getLineFromIndex_mono html a b (Nat.le_of_lt hab))

/-- C9 counterexample: two `<a>` open tags on the same source line get
distinct, increasing match indices but the SAME line number 1, refuting
"distinct, strictly increasing line numbers". -/
theorem same_line_tags_equal_lines :
    recoverIdxFrom "<a ><a >" 0 ["a", "a"] = [some 0, some 4]
    ∧ assignedLines "<a ><a >" ["a", "a"] = [1, 1]
    ∧ ¬ (assignedLines "<a ><a >" ["a", "a"]).Pairwise (fun a b => a < b) := by
  refine ⟨by decide, by decide, ?_⟩
  intro h
  have h11 : (assignedLines "<a ><a >" ["a", "a"]) = [1, 1] := by decide
  rw [h11] at h
  have := List.rel_of_pairwise_cons h (List.mem_singleton.mpr rfl)
  omega
